import Mathlib

/-
  Verification development for the DormDB provisioning backend.

  The Rust source is shallowly embedded: pure helper functions become Lean
  functions on String / List Char (character classes are modelled over ASCII,
  where Rust char::is_alphanumeric and byte length agree with Lean Char.isAlphanum
  and character count); the SQLite ledger and the external MySQL server become
  explicit record states; every SQL statement issued by the code is recorded in
  an action trace, and statements that can fail at runtime take an explicit
  fault flag (error injection), mirroring the fact that every sqlx call returns
  a Result.  Randomness is modelled by an abstract draw function Nat -> Nat,
  with draw number t for the t-th gen_range call and the modulus of the range
  applied to the drawn value.
-/

namespace DormDB

/-- Embedding of utils::validate_identity_key: non-empty, at most 50
characters, every character alphanumeric or underscore. -/
def validate_identity_key (k : String) : Bool :=
  if k.data.isEmpty || decide (k.data.length > 50) then false
  else k.data.all (fun c => c.isAlphanum || c == '_')

/-- The character-list core of auth::StudentValidator::validate_student_id_format,
also applied by the source to substrings of composed identifiers. -/
def student_id_format_ok (l : List Char) : Bool :=
  if l.isEmpty then false
  else if decide (l.length > 50) then false
  else if !(l.all (fun c => c.isAlphanum || c == '_' || c == '-')) then false
  else (l.headD ' ').isAlphanum && (l.getLastD ' ').isAlphanum

/-- Embedding of auth::StudentValidator::validate_student_id_format (Ok is
modelled as true): non-empty, at most 50 characters, characters alphanumeric,
underscore or hyphen, first and last character alphanumeric. -/
def validate_student_id_format (s : String) : Bool :=
  student_id_format_ok s.data

/-- Embedding of database::DatabaseManager::is_valid_identifier: non-empty,
at most 64 characters, first character alphabetic or underscore, every
character alphanumeric or underscore. -/
def is_valid_identifier (s : String) : Bool :=
  if s.data.isEmpty || decide (s.data.length > 64) then false
  else
    ((s.data.headD ' ').isAlpha || (s.data.headD ' ') == '_') &&
      s.data.all (fun c => c.isAlphanum || c == '_')

/-- Embedding of database::DatabaseManager::is_valid_database_name: the name
must start with db_, the remainder must be a valid student id, and the whole
must be a valid identifier. -/
def is_valid_database_name (s : String) : Bool :=
  if !(s.data.take 3 == "db_".data) then false
  else if !(student_id_format_ok (s.data.drop 3)) then false
  else is_valid_identifier s

/-- Embedding of database::DatabaseManager::is_valid_username: the name must
start with user_, the remainder must be a valid student id, and the whole
must be a valid identifier. -/
def is_valid_username (s : String) : Bool :=
  if !(s.data.take 5 == "user_".data) then false
  else if !(student_id_format_ok (s.data.drop 5)) then false
  else is_valid_identifier s

/-- Helper for is_valid_hostname: detects two consecutive dots. -/
def has_double_dot : List Char → Bool
  | '.' :: '.' :: _ => true
  | _ :: rest => has_double_dot rest
  | [] => false

/-- Embedding of database::DatabaseManager::is_valid_hostname. -/
def is_valid_hostname (h : String) : Bool :=
  if h.data.isEmpty || decide (h.data.length > 253) then false
  else if h.startsWith "." || h.endsWith "." || h.startsWith "-" || h.endsWith "-" then false
  else if has_double_dot h.data then false
  else h.data.all (fun c => c.isAlphanum || c == '.' || c == '-')

/-- Embedding of the masking logic of
database::DatabaseManager::get_public_applications: keys longer than 4
characters keep their first 4 characters followed by four asterisks, shorter
keys are fully masked. -/
def mask_identity_key (k : String) : String :=
  if decide (k.data.length > 4) then String.mk (k.data.take 4) ++ "****" else "****"

/-- The lowercase pool of utils::generate_secure_password. -/
def lowercase_chars : List Char := "abcdefghijklmnopqrstuvwxyz".data

/-- The uppercase pool of utils::generate_secure_password. -/
def uppercase_chars : List Char := "ABCDEFGHIJKLMNOPQRSTUVWXYZ".data

/-- The digit pool of utils::generate_secure_password. -/
def number_chars : List Char := "0123456789".data

/-- The symbol pool of utils::generate_secure_password. -/
def symbol_chars : List Char := "!@#$%^&*".data

/-- The combined pool used to fill the password beyond the four seeded
characters. -/
def all_chars : List Char := lowercase_chars ++ uppercase_chars ++ number_chars ++ symbol_chars

/-- One swap of the rand crate Fisher-Yates shuffle: positions i and j
exchange their values. -/
def list_swap (l : List Char) (i j : Nat) : List Char :=
  (l.set i (l.getD j ' ')).set j (l.getD i ' ')

/-- The Fisher-Yates loop of SliceRandom::shuffle: for i from len-1 down to 1,
swap position i with a drawn position in [0, i]. -/
def fy_loop (rng : Nat → Nat) (k : Nat) : Nat → List Char → List Char
  | 0, l => l
  | i+1, l => fy_loop rng (k+1) i (list_swap l (i+1) (rng k % (i+2)))

/-- SliceRandom::shuffle on a list, drawing from rng starting at draw k = 0. -/
def fy_shuffle (rng : Nat → Nat) (l : List Char) : List Char :=
  fy_loop rng 0 (l.length - 1) l

/-- The four seeded characters of utils::generate_secure_password, one from
each class (draws 0 to 3). -/
def mandatory_chars (rng : Nat → Nat) : List Char :=
  [lowercase_chars.getD (rng 0 % lowercase_chars.length) ' ',
   uppercase_chars.getD (rng 1 % uppercase_chars.length) ' ',
   number_chars.getD (rng 2 % number_chars.length) ' ',
   symbol_chars.getD (rng 3 % symbol_chars.length) ' ']

/-- The fill loop of utils::generate_secure_password: len - 4 draws from the
combined pool (draws 4 onward). -/
def fill_chars (len : Nat) (rng : Nat → Nat) : List Char :=
  (List.range (len - 4)).map
    (fun t => all_chars.getD (rng (4 + t) % all_chars.length) ' ')

/-- Embedding of utils::generate_secure_password: seed one character of each
of the four classes, fill up to the requested length from the combined pool,
then shuffle (draws from 4 + (len - 4) onward). -/
def generate_secure_password (len : Nat) (rng : Nat → Nat) : String :=
  String.mk (fy_shuffle (fun t => rng (4 + (len - 4) + t))
    (mandatory_chars rng ++ fill_chars len rng))

/-- Record status in the applicants ledger table. -/
inductive RStatus
  | success
  | failed
  | deleted
deriving DecidableEq, Repr

/-- A row of the SQLite applicants table (the ledger). -/
structure LRow where
  identity_key : String
  db_name : String
  db_user : String
  status : RStatus
  failure_reason : Option String
deriving DecidableEq, Repr

/-- A row of the SQLite student_ids table (the allowlist). -/
structure StudentRow where
  student_id : String
  has_applied : Bool
  applied_db_name : Option String
deriving DecidableEq, Repr

/-- Live state of the external MySQL server: which databases and which
user at host pairs exist. -/
structure MyState where
  dbs : List String
  users : List (String × String)
deriving DecidableEq, Repr

/-- Combined durable state: ledger rows, allowlist rows, external server. -/
structure World where
  rows : List LRow
  students : List StudentRow
  my : MyState
deriving DecidableEq, Repr

/-- One SQL statement issued by the code, recorded in execution traces. -/
inductive Act
  | queryExists (k : String)
  | queryAllowlist (k : String)
  | createDb (name : String)
  | createUser (user host : String)
  | grantPrivs (privs : List String) (db user host : String)
  | revokePrivs (user host : String)
  | flush
  | dropUser (user host : String)
  | dropDb (name : String)
  | insertRow (r : LRow)
  | deleteRows (k : String)
  | markApplied (k db : String)
deriving DecidableEq, Repr

/-- Fault-injection flags for the five MySQL statements of
provision_database; a set flag makes that statement return an error without
touching external state. -/
structure MyFaults where
  createDbFails : Bool
  createUserFails : Bool
  grantFails : Bool
  revokeFails : Bool
  flushFails : Bool
deriving DecidableEq, Repr

/-- Fault-injection flags for the statements of
rollback_database_creation. -/
structure RbFaults where
  dropUserFails : Bool
  dropDbFails : Bool
  flushFails : Bool
deriving DecidableEq, Repr

/-- No injected faults. -/
def MyFaults.none : MyFaults := ⟨false, false, false, false, false⟩

/-- No injected faults for rollback. -/
def RbFaults.none : RbFaults := ⟨false, false, false⟩

/-- Configuration relevant to the embedded core: the configured allowed host
of the MySQL section, the DEV_MODE environment flag, and an oracle for the
std::net::IpAddr parse used by is_valid_ip (its internals decide no claim). -/
structure Config where
  allowed_host : Option String
  devMode : Bool
  ipValid : String → Bool

/-- Embedding of database::DatabaseManager::is_valid_host. -/
def is_valid_host (cfg : Config) (host : String) : Bool :=
  if host.data.isEmpty || decide (host.data.length > 255) then false
  else if host == "%" then cfg.devMode
  else if host == "localhost" then true
  else if cfg.ipValid host then true
  else is_valid_hostname host

/-- The exact privilege list granted by provision_database. -/
def minimal_privs : List String :=
  ["SELECT", "INSERT", "UPDATE", "DELETE", "INDEX", "LOCK TABLES"]

/-- Embedding of DatabaseManager::check_identity_exists: true iff some
ledger row for the key has status other than deleted. -/
def check_identity_exists (k : String) (w : World) : Bool × List Act :=
  (w.rows.any (fun r => r.identity_key == k && !(r.status == RStatus.deleted)),
   [Act.queryExists k])

/-- Embedding of DatabaseManager::is_student_id_allowed: format check first
(no query on failure), then a lookup for an allowlist row with the key and
has_applied = 0. -/
def is_student_id_allowed (k : String) (w : World) : Bool × List Act :=
  if !(validate_student_id_format k) then (false, [])
  else (w.students.any (fun s => s.student_id == k && !s.has_applied),
        [Act.queryAllowlist k])

/-- Embedding of DatabaseManager::create_applicant.  The applicants schema
declares identity_key TEXT UNIQUE NOT NULL, so the INSERT fails whenever any
row (of any status) already carries the key. -/
def create_applicant (k db user : String) (w : World) :
    Except String World × List Act :=
  let row : LRow := ⟨k, db, user, RStatus.success, Option.none⟩
  if w.rows.any (fun r => r.identity_key == k) then
    (Except.error "UNIQUE constraint failed", [Act.insertRow row])
  else
    (Except.ok { w with rows := w.rows ++ [row] }, [Act.insertRow row])

/-- Embedding of DatabaseManager::create_failed_applicant, subject to the
same UNIQUE constraint on identity_key. -/
def create_failed_applicant (k reason : String) (w : World) :
    Except String World × List Act :=
  let row : LRow := ⟨k, "", "", RStatus.failed, Option.some reason⟩
  if w.rows.any (fun r => r.identity_key == k) then
    (Except.error "UNIQUE constraint failed", [Act.insertRow row])
  else
    (Except.ok { w with rows := w.rows ++ [row] }, [Act.insertRow row])

/-- Embedding of DatabaseManager::mark_student_applied. -/
def mark_student_applied (k db : String) (w : World) : World × List Act :=
  ({ w with students := w.students.map (fun s =>
      if s.student_id == k then
        { s with has_applied := true, applied_db_name := Option.some db }
      else s) },
   [Act.markApplied k db])

/-- Embedding of DatabaseManager::rollback_database_creation: drop user,
drop database, flush privileges; every error is logged and swallowed, the
function always returns Ok. -/
def rollback_database_creation (cfg : Config) (k : String) (f : RbFaults)
    (w : World) : Except String Unit × World × List Act :=
  let db_name := "db_" ++ k
  let username := "user_" ++ k
  let host := cfg.allowed_host.getD "localhost"
  let my1 :=
    if f.dropUserFails then w.my
    else { w.my with users := w.my.users.filter (fun p => !(p.1 == username && p.2 == host)) }
  let my2 :=
    if f.dropDbFails then my1
    else { my1 with dbs := my1.dbs.filter (fun d => !(d == db_name)) }
  (Except.ok (), { w with my := my2 },
   [Act.dropUser username host, Act.dropDb db_name, Act.flush])

/-- Credentials returned by provision_database (fields needed by the
claims). -/
structure Credentials where
  db_name : String
  username : String
  password : String
deriving DecidableEq, Repr

/-- Embedding of DatabaseManager::provision_database: allowlist eligibility,
wildcard-host policy, identifier validations, then CREATE DATABASE, CREATE
USER, GRANT minimal privileges, best-effort REVOKE of dangerous privileges,
FLUSH PRIVILEGES, and finally mark_student_applied (best effort). -/
def provision_database (cfg : Config) (k password : String) (f : MyFaults)
    (w : World) : Except String Credentials × World × List Act :=
  let pr := is_student_id_allowed k w
  let t0 := pr.2
  if !pr.1 then (Except.error "not in allowlist or already applied", w, t0)
  else
    let db_name := "db_" ++ k
    let username := "user_" ++ k
    let allowed_host := cfg.allowed_host.getD "localhost"
    if allowed_host == "%" && !cfg.devMode then
      (Except.error "wildcard host forbidden", w, t0)
    else if !(is_valid_identifier db_name) then
      (Except.error "Invalid database name format", w, t0)
    else if !(is_valid_database_name db_name) then
      (Except.error "database name violates policy", w, t0)
    else
      let t1 := t0 ++ [Act.createDb db_name]
      if f.createDbFails then (Except.error "create database failed", w, t1)
      else
        let w1 := { w with my := { w.my with dbs :=
          (if w.my.dbs.contains db_name then w.my.dbs else w.my.dbs ++ [db_name]) } }
        if !(is_valid_username username) then
          (Except.error "Invalid username format", w1, t1)
        else if !(is_valid_host cfg allowed_host) then
          (Except.error "Invalid host format", w1, t1)
        else
          let t2 := t1 ++ [Act.createUser username allowed_host]
          if f.createUserFails then (Except.error "create user failed", w1, t2)
          else
            let w2 := { w1 with my := { w1.my with users :=
              (if w1.my.users.contains (username, allowed_host) then w1.my.users
               else w1.my.users ++ [(username, allowed_host)]) } }
            let t3 := t2 ++ [Act.grantPrivs minimal_privs db_name username allowed_host]
            if f.grantFails then (Except.error "grant failed", w2, t3)
            else
              let t4 := t3 ++ [Act.revokePrivs username allowed_host]
              let t5 := t4 ++ [Act.flush]
              if f.flushFails then (Except.error "flush failed", w2, t5)
              else
                let ma := mark_student_applied k db_name w2
                (Except.ok ⟨db_name, username, password⟩, ma.1, t5 ++ ma.2)

/-- Embedding of DatabaseManager::provision_database_with_transaction: on
external success write the success ledger row; if that write fails, roll the
external resources back and propagate the error. -/
def provision_database_with_transaction (cfg : Config) (k password : String)
    (f : MyFaults) (rf : RbFaults) (w : World) :
    Except String Credentials × World × List Act :=
  match provision_database cfg k password f w with
  | (Except.error e, w1, t1) => (Except.error e, w1, t1)
  | (Except.ok creds, w1, t1) =>
    match create_applicant k creds.db_name creds.username w1 with
    | (Except.ok w2, t2) => (Except.ok creds, w2, t1 ++ t2)
    | (Except.error e, t2) =>
      let rb := rollback_database_creation cfg k rf w1
      (Except.error e, rb.2.1, t1 ++ t2 ++ rb.2.2)

/-- Embedding of DatabaseManager::repair_data_inconsistency: if any
non-deleted ledger row for the key exists, hard-delete every ledger row for
the key; then best-effort rollback of the external resources. -/
def repair_data_inconsistency (cfg : Config) (k : String) (rf : RbFaults)
    (w : World) : World × List Act :=
  let ce := check_identity_exists k w
  let step :=
    if ce.1 then
      ({ w with rows := w.rows.filter (fun r => !(r.identity_key == k)) },
       [Act.deleteRows k])
    else (w, ([] : List Act))
  let rb := rollback_database_creation cfg k rf step.1
  (rb.2.1, ce.2 ++ step.2 ++ rb.2.2)

/-- Embedding of DatabaseManager::verify_data_consistency: a key with no
non-deleted ledger row is consistent; otherwise both the database db_key and
a MySQL user named user_key must exist. -/
def verify_data_consistency (k : String) (w : World) : Bool :=
  let ex := w.rows.any (fun r => r.identity_key == k && !(r.status == RStatus.deleted))
  if !ex then true
  else
    w.my.dbs.contains ("db_" ++ k) &&
    w.my.users.any (fun p => p.1 == "user_" ++ k)

/-- Uniform response envelope of the service layer (models::ApiResponse with
the status codes of models::StatusCode). -/
structure ApiResp where
  code : Nat
  data : Option Credentials
deriving DecidableEq, Repr

/-- Embedding of services::DatabaseService::apply_database: validate the key,
reject on an active ledger row, provision transactionally, and on failure
record a failed application then repair the inconsistency. -/
def apply_database (cfg : Config) (k password : String) (f : MyFaults)
    (rfTx rfRepair : RbFaults) (w : World) : ApiResp × World × List Act :=
  if !(validate_identity_key k) then (⟨40001, Option.none⟩, w, [])
  else
    let ce := check_identity_exists k w
    if ce.1 then (⟨40901, Option.none⟩, w, ce.2)
    else
      match provision_database_with_transaction cfg k password f rfTx w with
      | (Except.ok creds, w1, t2) => (⟨0, Option.some creds⟩, w1, ce.2 ++ t2)
      | (Except.error e, w1, t2) =>
        let fa := create_failed_applicant k ("provisioning failed: " ++ e) w1
        let w2 := match fa.1 with
          | Except.ok w2 => w2
          | Except.error _ => w1
        let rp := repair_data_inconsistency cfg k rfRepair w2
        (⟨50002, Option.none⟩, rp.1, ce.2 ++ t2 ++ fa.2 ++ rp.2)

/-- Report of the consistency check: total records examined, inconsistent
records, repaired records. -/
structure Report where
  total : Nat
  inconsistent : Nat
  repaired : Nat
deriving DecidableEq, Repr

/-- Embedding of services::DatabaseService::perform_consistency_check: take a
snapshot of all applicants rows (every status), then for each row verify the
consistency of its key against the evolving state and repair on failure. -/
def perform_consistency_check (cfg : Config) (rf : RbFaults) (w : World) :
    Report × World :=
  let snapshot := w.rows
  let step := fun (acc : Nat × Nat × World) (r : LRow) =>
    if verify_data_consistency r.identity_key acc.2.2 then acc
    else
      (acc.1 + 1, acc.2.1 + 1,
       (repair_data_inconsistency cfg r.identity_key rf acc.2.2).1)
  let out := snapshot.foldl step (0, 0, w)
  (⟨snapshot.length, out.1, out.2.1⟩, out.2.2)

/-- A public application record as produced by get_public_applications. -/
structure PublicRecord where
  id : Nat
  identity_key_masked : String
  status : RStatus
deriving DecidableEq, Repr

/-- Embedding of DatabaseManager::get_public_applications over a list of
ledger rows (paired with their ids): every returned record carries the masked
identity key. -/
def get_public_applications (rows : List (Nat × LRow)) (limit : Nat) :
    List PublicRecord :=
  (rows.take limit).map (fun p =>
    ⟨p.1, mask_identity_key p.2.identity_key, p.2.status⟩)

/-- Concrete scenario fixture: configuration with allowed host localhost,
production mode. -/
def cfg0 : Config := ⟨Option.some "localhost", false, fun _ => false⟩

/-- Concrete scenario fixture: the allowlisted, not yet applied student
2023010101. -/
def stu0 : StudentRow := ⟨"2023010101", false, Option.none⟩

/-- Concrete scenario fixture: empty ledger, one eligible student, empty
external server. -/
def w0 : World := ⟨[], [stu0], ⟨[], []⟩⟩

/-- Concrete scenario fixture: ledger holding only a deleted row for
2023010101, the student still eligible, empty external server. -/
def wDel : World :=
  ⟨[⟨"2023010101", "db_2023010101", "user_2023010101", RStatus.deleted, Option.none⟩],
   [stu0], ⟨[], []⟩⟩

/-- Concrete scenario fixture: empty ledger and an empty allowlist. -/
def wNoStu : World := ⟨[], [], ⟨[], []⟩⟩

/-- Concrete scenario fixture: a ledger with one failed row for key k1 and
no external resources. -/
def wFailRow : World := ⟨[⟨"k1", "", "", RStatus.failed, Option.some "r"⟩], [], ⟨[], []⟩⟩

/-- Concrete scenario fixture: example rows for the public-records claims. -/
def pub_rows_example : List (Nat × LRow) :=
  [(1, ⟨"2023010101", "db_2023010101", "user_2023010101", RStatus.success, Option.none⟩),
   (2, ⟨"abc", "", "", RStatus.failed, Option.some "x"⟩)]

/-- Concrete run: provisioning the eligible key 2023010101 while the external
create-user statement fails (partial external creation). -/
def run_user_step_fails : ApiResp × World × List Act :=
  apply_database cfg0 "2023010101" "PwAa1" ⟨false, true, false, false, false⟩
    RbFaults.none RbFaults.none w0

/-- Concrete run: provisioning the eligible key 2023010101 whose only ledger
row has status deleted, with a fault-free external server. -/
def run_deleted_key_retry : ApiResp × World × List Act :=
  apply_database cfg0 "2023010101" "PwAa1" MyFaults.none RbFaults.none RbFaults.none wDel

/-- Concrete run: provisioning the format-valid key 2023010101 when the
allowlist is empty, with a fault-free external server. -/
def run_not_allowlisted : ApiResp × World × List Act :=
  apply_database cfg0 "2023010101" "PwAa1" MyFaults.none RbFaults.none RbFaults.none wNoStu

/-- Concrete run: the Reconciler over a ledger holding one failed row whose
key has no external resources. -/
def run_reconcile_failed_row : Report × World :=
  perform_consistency_check cfg0 RbFaults.none wFailRow

/-- Concrete run: create_scoped_resource for the eligible key 2023010101
with the grant statement failing. -/
def run_grant_fails : Except String Credentials × World × List Act :=
  provision_database cfg0 "2023010101" "PwAa1" ⟨false, false, true, false, false⟩ w0

/-! ## Shared helper lemmas -/

theorem validate_identity_key_chars {k : String}
    (h : validate_identity_key k = true) :
    ∀ c ∈ k.data, (c.isAlphanum || c == '_') = true := by
  unfold validate_identity_key at h
  split at h
  · exact absurd h (by simp)
  · simpa [List.all_eq_true] using h

theorem set_cons_perm : ∀ (xs : List Char) (j : Nat) (x : Char), j < xs.length →
    (xs.getD j ' ' :: xs.set j x).Perm (x :: xs) := by
  intro xs
  induction xs with
  | nil => intro j x hj; simp at hj
  | cons y ys ih =>
    intro j x hj
    cases j with
    | zero =>
      simpa using List.Perm.swap x y ys
    | succ j =>
      have hj' : j < ys.length := by simpa using hj
      have step1 : (ys.getD j ' ' :: y :: ys.set j x).Perm
          (y :: ys.getD j ' ' :: ys.set j x) := List.Perm.swap y (ys.getD j ' ') _
      have step2 : (y :: ys.getD j ' ' :: ys.set j x).Perm (y :: x :: ys) :=
        (ih j x hj').cons y
      have step3 : (y :: x :: ys).Perm (x :: y :: ys) := List.Perm.swap x y ys
      simpa using step1.trans (step2.trans step3)

theorem list_swap_length (l : List Char) (i j : Nat) :
    (list_swap l i j).length = l.length := by
  simp [list_swap]

theorem list_swap_perm : ∀ (l : List Char) (i j : Nat), i < l.length → j < l.length →
    (list_swap l i j).Perm l := by
  intro l
  induction l with
  | nil => intro i j hi hj; simp at hi
  | cons x xs ih =>
    intro i j hi hj
    match i, j with
    | 0, 0 =>
      simp [list_swap]
    | 0, j+1 =>
      have hj' : j < xs.length := by simpa using hj
      simpa [list_swap] using set_cons_perm xs j x hj'
    | i+1, 0 =>
      have hi' : i < xs.length := by simpa using hi
      simpa [list_swap] using set_cons_perm xs i x hi'
    | i+1, j+1 =>
      have hi' : i < xs.length := by simpa using hi
      have hj' : j < xs.length := by simpa using hj
      simpa [list_swap] using (ih i j hi' hj').cons x

theorem fy_loop_perm (rng : Nat → Nat) : ∀ (i k : Nat) (l : List Char),
    i < l.length → (fy_loop rng k i l).Perm l := by
  intro i
  induction i with
  | zero =>
    intro k l _
    exact List.Perm.refl l
  | succ i ih =>
    intro k l h
    have hjlt : rng k % (i+2) < l.length :=
      lt_of_lt_of_le (Nat.mod_lt _ (by omega)) (by omega)
    have hswap := list_swap_perm l (i+1) (rng k % (i+2)) h hjlt
    have hlen : i < (list_swap l (i+1) (rng k % (i+2))).length := by
      rw [list_swap_length]; omega
    exact (ih (k+1) _ hlen).trans hswap

theorem fy_shuffle_perm (rng : Nat → Nat) (l : List Char) :
    (fy_shuffle rng l).Perm l := by
  cases l with
  | nil => exact List.Perm.refl _
  | cons x xs =>
    have h : xs.length < (x :: xs).length := by simp
    simpa [fy_shuffle] using fy_loop_perm rng xs.length 0 (x :: xs) h

theorem getD_mod_mem (cls : List Char) (n : Nat) (h : cls ≠ []) :
    cls.getD (n % cls.length) ' ' ∈ cls := by
  have hlt : n % cls.length < cls.length := Nat.mod_lt _ (List.length_pos.mpr h)
  rw [List.getD_eq_getElem _ _ hlt]
  exact List.getElem_mem hlt

theorem student_format_shape {l : List Char} (h : student_id_format_ok l = true) :
    l ≠ [] ∧ l.length ≤ 50 := by
  unfold student_id_format_ok at h
  by_cases h1 : l.isEmpty
  · rw [if_pos h1] at h; exact absurd h (by simp)
  · rw [if_neg h1] at h
    by_cases h2 : decide (l.length > 50) = true
    · rw [if_pos h2] at h; exact absurd h (by simp)
    · constructor
      · simpa using h1
      · simp only [decide_eq_true_eq] at h2; omega

theorem is_student_id_allowed_eq_true {k : String} {w : World}
    (hf : validate_student_id_format k = true)
    (hs : w.students.any (fun s => s.student_id == k && !s.has_applied) = true) :
    is_student_id_allowed k w = (true, [Act.queryAllowlist k]) := by
  simp [is_student_id_allowed, hf, hs]

theorem prefixed_identifier_ok (p : String) {k : String}
    (hp1 : p.data ≠ [])
    (hp2 : ((p.data.headD ' ').isAlpha || (p.data.headD ' ') == '_') = true)
    (hp3 : p.data.all (fun c => c.isAlphanum || c == '_') = true)
    (hplen : p.data.length + k.data.length ≤ 64)
    (hall : k.data.all (fun c => c.isAlphanum || c == '_') = true) :
    is_valid_identifier (p ++ k) = true := by
  rcases List.exists_cons_of_ne_nil hp1 with ⟨c, cs, hcs⟩
  have hd : (p ++ k).data = c :: (cs ++ k.data) := by
    rw [String.data_append, hcs, List.cons_append]
  have hlen2 : ¬ ((c :: (cs ++ k.data)).length > 64) := by
    have hpl : p.data.length = cs.length + 1 := by rw [hcs]; simp
    simp only [List.length_cons, List.length_append]
    omega
  rw [hcs] at hp2 hp3
  unfold is_valid_identifier
  rw [hd]
  simp only [List.isEmpty_cons, Bool.false_or, decide_eq_true_eq]
  rw [if_neg hlen2]
  simp only [List.headD_cons, List.all_cons, List.all_append] at hp2 hp3 ⊢
  simp_all

theorem db_name_valid_ok {k : String}
    (hfmt : validate_student_id_format k = true)
    (hall : k.data.all (fun c => c.isAlphanum || c == '_') = true) :
    is_valid_database_name ("db_" ++ k) = true := by
  have hshape := student_format_shape (l := k.data) hfmt
  have ht : ("db_" ++ k).data.take 3 = "db_".data := by
    rw [String.data_append]; exact List.take_left' (by decide)
  have hd : ("db_" ++ k).data.drop 3 = k.data := by
    rw [String.data_append]; exact List.drop_left' (by decide)
  have hid : is_valid_identifier ("db_" ++ k) = true :=
    prefixed_identifier_ok "db_" (by decide) (by decide) (by decide)
      (by have := hshape.2; simp only [show ("db_").data.length = 3 from by decide]; omega)
      hall
  have hfmt' : student_id_format_ok k.data = true := hfmt
  unfold is_valid_database_name
  rw [ht, hd]
  simp [hfmt', hid]

theorem username_valid_ok {k : String}
    (hfmt : validate_student_id_format k = true)
    (hall : k.data.all (fun c => c.isAlphanum || c == '_') = true) :
    is_valid_username ("user_" ++ k) = true := by
  have hshape := student_format_shape (l := k.data) hfmt
  have ht : ("user_" ++ k).data.take 5 = "user_".data := by
    rw [String.data_append]; exact List.take_left' (by decide)
  have hd : ("user_" ++ k).data.drop 5 = k.data := by
    rw [String.data_append]; exact List.drop_left' (by decide)
  have hid : is_valid_identifier ("user_" ++ k) = true :=
    prefixed_identifier_ok "user_" (by decide) (by decide) (by decide)
      (by have := hshape.2; simp only [show ("user_").data.length = 5 from by decide]; omega)
      hall
  have hfmt' : student_id_format_ok k.data = true := hfmt
  unfold is_valid_username
  rw [ht, hd]
  simp [hfmt', hid]

theorem is_valid_host_localhost (cfg : Config) :
    is_valid_host cfg "localhost" = true := by
  have h1 : ("localhost" == "%") = false := by decide
  have h2 : ("localhost" == "localhost") = true := by decide
  have h3 : ("localhost").data.isEmpty = false := by decide
  have h4 : decide (("localhost").data.length > 255) = false := by decide
  simp [is_valid_host, h1, h2, h3, h4]

theorem is_valid_host_wildcard (cfg : Config) :
    is_valid_host cfg "%" = cfg.devMode := by
  have h1 : ("%" == "%") = true := by decide
  have h3 : ("%").data.isEmpty = false := by decide
  have h4 : decide (("%").data.length > 255) = false := by decide
  simp [is_valid_host, h1, h3, h4]

theorem check_identity_exists_of_no_row {k : String} {w : World}
    (h : ∀ r ∈ w.rows, r.identity_key ≠ k) :
    check_identity_exists k w = (false, [Act.queryExists k]) := by
  unfold check_identity_exists
  have : w.rows.any (fun r => r.identity_key == k && !(r.status == RStatus.deleted)) = false := by
    rw [List.any_eq_false]
    intro r hr
    simp [h r hr]
  rw [this]

theorem provision_happy (cfg : Config) (k pw : String) (w : World) (host : String)
    (hh : cfg.allowed_host = Option.some host)
    (hwild : (host == "%" && !cfg.devMode) = false)
    (hhostv : is_valid_host cfg host = true)
    (hfmt : validate_student_id_format k = true)
    (hall : k.data.all (fun c => c.isAlphanum || c == '_') = true)
    (hstu : w.students.any (fun s => s.student_id == k && !s.has_applied) = true) :
    (provision_database cfg k pw MyFaults.none w).1 =
        Except.ok ⟨"db_" ++ k, "user_" ++ k, pw⟩ ∧
    (provision_database cfg k pw MyFaults.none w).2.2 =
      [Act.queryAllowlist k, Act.createDb ("db_" ++ k),
       Act.createUser ("user_" ++ k) host,
       Act.grantPrivs minimal_privs ("db_" ++ k) ("user_" ++ k) host,
       Act.revokePrivs ("user_" ++ k) host, Act.flush,
       Act.markApplied k ("db_" ++ k)] := by
  have hA := is_student_id_allowed_eq_true hfmt hstu
  have hs := student_format_shape (l := k.data) hfmt
  have hid : is_valid_identifier ("db_" ++ k) = true :=
    prefixed_identifier_ok "db_" (by decide) (by decide) (by decide)
      (by have := hs.2; simp only [show ("db_").data.length = 3 from by decide]; omega) hall
  have hdb := db_name_valid_ok hfmt hall
  have hus := username_valid_ok hfmt hall
  constructor <;>
    simp [provision_database, hA, hh, hwild, hid, hdb, hus, hhostv, MyFaults.none,
          mark_student_applied]

theorem provision_grant_fail (cfg : Config) (k pw : String) (w : World) (host : String)
    (f : MyFaults)
    (hh : cfg.allowed_host = Option.some host)
    (hwild : (host == "%" && !cfg.devMode) = false)
    (hhostv : is_valid_host cfg host = true)
    (hfmt : validate_student_id_format k = true)
    (hall : k.data.all (fun c => c.isAlphanum || c == '_') = true)
    (hstu : w.students.any (fun s => s.student_id == k && !s.has_applied) = true)
    (h1 : f.createDbFails = false) (h2 : f.createUserFails = false)
    (h3 : f.grantFails = true) :
    (provision_database cfg k pw f w).1 = Except.error "grant failed" ∧
    (provision_database cfg k pw f w).2.2 =
      [Act.queryAllowlist k, Act.createDb ("db_" ++ k),
       Act.createUser ("user_" ++ k) host,
       Act.grantPrivs minimal_privs ("db_" ++ k) ("user_" ++ k) host] := by
  have hA := is_student_id_allowed_eq_true hfmt hstu
  have hs := student_format_shape (l := k.data) hfmt
  have hid : is_valid_identifier ("db_" ++ k) = true :=
    prefixed_identifier_ok "db_" (by decide) (by decide) (by decide)
      (by have := hs.2; simp only [show ("db_").data.length = 3 from by decide]; omega) hall
  have hdb := db_name_valid_ok hfmt hall
  have hus := username_valid_ok hfmt hall
  constructor <;>
    simp [provision_database, hA, hh, hwild, hid, hdb, hus, hhostv, h1, h2, h3]

/-! ## Claim theorems -/

/-- C7 (counterexample): the identity-key validator that apply_database
applies to a provisioning request rejects the key a-b, which contains a
hyphen with alphanumeric first and last characters, and accepts the key
_abc, which begins with an underscore; the claim asserts the opposite of
both. -/
theorem C7_counterexample :
    validate_identity_key "a-b" = false ∧ validate_identity_key "_abc" = true := by
  decide

/-- C7 (amended): validate_identity_key, the identity-key validator that
apply_database applies to a provisioning request, accepts a key iff it is
non-empty, has at most 50 characters, and every character is alphanumeric or
an underscore; in particular a key containing a hyphen is always rejected as
InvalidFormat, and a key beginning or ending with an underscore passes this
validator (it is only later rejected by the allowlist-stage format check,
surfacing as a provisioning failure, not as InvalidFormat). -/
theorem C7_amended (k : String) :
    (validate_identity_key k = true ↔
      (k.data ≠ [] ∧ k.data.length ≤ 50 ∧
       ∀ c ∈ k.data, (c.isAlphanum || c == '_') = true)) ∧
    ('-' ∈ k.data → validate_identity_key k = false) := by
  constructor
  · unfold validate_identity_key
    cases hk : k.data.isEmpty with
    | true =>
      have hnil : k.data = [] := by simpa using hk
      simp [hnil]
    | false =>
      have hne : k.data ≠ [] := by simpa using hk
      by_cases hl : k.data.length > 50
      · simp [hk, hl, hne]
      · simp [hk, hl, hne, List.all_eq_true]
  · intro hm
    unfold validate_identity_key
    cases hg : (k.data.isEmpty || decide (k.data.length > 50)) with
    | true => simp [hg]
    | false =>
      simp only [hg, Bool.false_eq_true, if_false]
      by_cases hall : k.data.all (fun c => c.isAlphanum || c == '_') = true
      · have := (List.all_eq_true.mp hall) '-' hm
        exact absurd this (by decide)
      · simpa using hall

/-- C7 witness for the amended theorem: at the concrete key user-123, which
contains a hyphen, the validator answers false. -/
theorem C7_amended_witness : validate_identity_key "user-123" = false :=
  (C7_amended "user-123").2 (by decide)

/-- C10: every record returned by get_public_applications carries the masked
key: four asterisks when the stored key has at most 4 characters, the first
4 characters followed by four asterisks otherwise; and, since every
applicants row is inserted only after validate_identity_key accepted its key
(so the key holds no asterisk), the masked form of a key longer than 4
characters never equals the full key. -/
theorem C10_public_records_masked (rows : List (Nat × LRow)) (limit : Nat)
    (hv : ∀ p ∈ rows, validate_identity_key p.2.identity_key = true) :
    ∀ q ∈ get_public_applications rows limit, ∃ p ∈ rows,
      q.identity_key_masked = mask_identity_key p.2.identity_key ∧
      (p.2.identity_key.data.length ≤ 4 → q.identity_key_masked = "****") ∧
      (4 < p.2.identity_key.data.length →
        q.identity_key_masked = String.mk (p.2.identity_key.data.take 4) ++ "****" ∧
        q.identity_key_masked ≠ p.2.identity_key) := by
  intro q hq
  unfold get_public_applications at hq
  rcases List.mem_map.mp hq with ⟨p, hpTake, hpq⟩
  have hp : p ∈ rows := List.mem_of_mem_take hpTake
  subst hpq
  refine ⟨p, hp, rfl, ?_, ?_⟩
  · intro hle
    have hc : ¬ 4 < p.2.identity_key.length :=
      fun h => absurd (show 4 < p.2.identity_key.data.length from h) (by omega)
    simp [mask_identity_key, hc]
  · intro hgt
    have hgt' : 4 < p.2.identity_key.length := hgt
    have hmaskdata : (mask_identity_key p.2.identity_key).data =
        p.2.identity_key.data.take 4 ++ "****".data := by
      simp [mask_identity_key, hgt, hgt', String.data_append]
    constructor
    · simp [mask_identity_key, hgt, hgt']
    · intro heq
      have hd := congrArg String.data heq
      rw [hmaskdata] at hd
      have hstar : '*' ∈ p.2.identity_key.data := by
        rw [← hd]
        exact List.mem_append.mpr (Or.inr (by decide))
      have := validate_identity_key_chars (hv p hp) '*' hstar
      exact absurd this (by decide)

/-- C10 witness: the masking theorem applied to a concrete two-row ledger
with keys 2023010101 and abc. -/
theorem C10_public_records_masked_witness :
    (∀ p ∈ pub_rows_example, validate_identity_key p.2.identity_key = true) ∧
    ∀ q ∈ get_public_applications pub_rows_example 50, ∃ p ∈ pub_rows_example,
      q.identity_key_masked = mask_identity_key p.2.identity_key ∧
      (p.2.identity_key.data.length ≤ 4 → q.identity_key_masked = "****") ∧
      (4 < p.2.identity_key.data.length →
        q.identity_key_masked = String.mk (p.2.identity_key.data.take 4) ++ "****" ∧
        q.identity_key_masked ≠ p.2.identity_key) := by
  have hv : ∀ p ∈ pub_rows_example, validate_identity_key p.2.identity_key = true := by
    intro p hp
    fin_cases hp <;> decide
  exact ⟨hv, C10_public_records_masked pub_rows_example 50 hv⟩

/-- C9: for every requested length of at least 4 and every draw sequence,
generate_secure_password returns a string of exactly the requested length
that contains at least one lowercase letter, one uppercase letter, one
digit, and one symbol from the fixed pool of eight symbols. -/
theorem C9_password_policy (len : Nat) (rng : Nat → Nat) (h4 : 4 ≤ len) :
    (generate_secure_password len rng).length = len ∧
    (∃ c ∈ (generate_secure_password len rng).data, c.isLower = true) ∧
    (∃ c ∈ (generate_secure_password len rng).data, c.isUpper = true) ∧
    (∃ c ∈ (generate_secure_password len rng).data, c.isDigit = true) ∧
    (∃ c ∈ (generate_secure_password len rng).data, c ∈ symbol_chars) := by
  have hperm := fy_shuffle_perm (fun t => rng (4 + (len - 4) + t))
      (mandatory_chars rng ++ fill_chars len rng)
  have hdata : (generate_secure_password len rng).data =
      fy_shuffle (fun t => rng (4 + (len - 4) + t))
        (mandatory_chars rng ++ fill_chars len rng) := rfl
  have hmem : ∀ c ∈ mandatory_chars rng, c ∈ (generate_secure_password len rng).data := by
    intro c hc
    rw [hdata]
    exact hperm.mem_iff.mpr (List.mem_append_left _ hc)
  refine ⟨?_, ?_, ?_, ?_, ?_⟩
  · show (generate_secure_password len rng).data.length = len
    rw [hdata, hperm.length_eq]
    simp only [List.length_append]
    simp [mandatory_chars, fill_chars]
    omega
  · refine ⟨lowercase_chars.getD (rng 0 % lowercase_chars.length) ' ', hmem _ ?_, ?_⟩
    · simp [mandatory_chars]
    · have hall : ∀ c ∈ lowercase_chars, c.isLower = true := by decide
      exact hall _ (getD_mod_mem lowercase_chars (rng 0) (by decide))
  · refine ⟨uppercase_chars.getD (rng 1 % uppercase_chars.length) ' ', hmem _ ?_, ?_⟩
    · simp [mandatory_chars]
    · have hall : ∀ c ∈ uppercase_chars, c.isUpper = true := by decide
      exact hall _ (getD_mod_mem uppercase_chars (rng 1) (by decide))
  · refine ⟨number_chars.getD (rng 2 % number_chars.length) ' ', hmem _ ?_, ?_⟩
    · simp [mandatory_chars]
    · have hall : ∀ c ∈ number_chars, c.isDigit = true := by decide
      exact hall _ (getD_mod_mem number_chars (rng 2) (by decide))
  · refine ⟨symbol_chars.getD (rng 3 % symbol_chars.length) ' ', hmem _ ?_, ?_⟩
    · simp [mandatory_chars]
    · exact getD_mod_mem symbol_chars (rng 3) (by decide)

/-- C9 witness: the password policy theorem applied at length 16 with the
all-zero draw sequence. -/
theorem C9_password_policy_witness :
    4 ≤ 16 ∧
    ((generate_secure_password 16 (fun _ => 0)).length = 16 ∧
     (∃ c ∈ (generate_secure_password 16 (fun _ => 0)).data, c.isLower = true) ∧
     (∃ c ∈ (generate_secure_password 16 (fun _ => 0)).data, c.isUpper = true) ∧
     (∃ c ∈ (generate_secure_password 16 (fun _ => 0)).data, c.isDigit = true) ∧
     (∃ c ∈ (generate_secure_password 16 (fun _ => 0)).data, c ∈ symbol_chars)) :=
  ⟨by decide, C9_password_policy 16 (fun _ => 0) (by decide)⟩

/-- C8: teardown (rollback_database_creation) always reports success: the
first and a second sequential call return Ok whatever drop or flush errors
the server produces (absent resources included), and with no injected faults
the second call leaves the state unchanged, with both the scoped database
and the scoped user at the configured host absent after the first call. -/
theorem C8_teardown_idempotent (cfg : Config) (k : String) (w : World)
    (f1 f2 : RbFaults) :
    (rollback_database_creation cfg k f1 w).1 = Except.ok () ∧
    (rollback_database_creation cfg k f2
        (rollback_database_creation cfg k f1 w).2.1).1 = Except.ok () ∧
    ((rollback_database_creation cfg k RbFaults.none
        (rollback_database_creation cfg k RbFaults.none w).2.1).2.1 =
      (rollback_database_creation cfg k RbFaults.none w).2.1) ∧
    ("db_" ++ k) ∉ (rollback_database_creation cfg k RbFaults.none w).2.1.my.dbs ∧
    ("user_" ++ k, cfg.allowed_host.getD "localhost") ∉
      (rollback_database_creation cfg k RbFaults.none w).2.1.my.users := by
  refine ⟨rfl, rfl, ?_, ?_, ?_⟩
  · simp [rollback_database_creation, RbFaults.none, List.filter_filter]
  · simp [rollback_database_creation, RbFaults.none, List.mem_filter]
  · simp [rollback_database_creation, RbFaults.none, List.mem_filter]

/-- C1: evaluation at the failing input.  The allowlisted, format-valid key
2023010101 is provisioned against an empty ledger and an empty server and
the external create-user statement fails after the database was created.
After the orchestrator finishes its failure handling, neither the database
nor the user exists (as the claim states) and no success record exists, but
the ledger holds no record at all for the key: the failed record written by
create_failed_applicant (its INSERT is visible in the trace) is deleted
again by repair_data_inconsistency, so no failed record remains. -/
theorem C1_failed_record_wiped :
    run_user_step_fails.1.code = 50002 ∧
    run_user_step_fails.2.1.my.dbs = [] ∧
    run_user_step_fails.2.1.my.users = [] ∧
    (Act.insertRow ⟨"2023010101", "", "", RStatus.failed,
        Option.some "provisioning failed: create user failed"⟩)
      ∈ run_user_step_fails.2.2 ∧
    run_user_step_fails.2.1.rows = [] := by
  decide

/-- C3: evaluation at the failing input.  The key 2023010101 has exactly one
ledger row, with status deleted, and is still allowlisted.  The new
provisioning attempt passes the active-rows check (it is not rejected as
AlreadyExists, matching the first half of the claim), the external creation
succeeds, but the insert of the new success row violates the unconditional
UNIQUE constraint on identity_key, so the attempt ends as a provisioning
failure (code 50002), the external resources are rolled back, and the ledger
still holds only the deleted row: a deleted key cannot be provisioned
again. -/
theorem C3_deleted_key_cannot_reprovision :
    run_deleted_key_retry.1.code = 50002 ∧
    run_deleted_key_retry.2.1.rows = wDel.rows ∧
    run_deleted_key_retry.2.1.my.dbs = [] ∧
    run_deleted_key_retry.2.1.my.users = [] := by
  decide

/-- C2 (counterexample): a ledger whose only row is a failed record for a
key with no external resources.  The Reconciler classifies that failed
record as inconsistent and repairs it (report inconsistent 1, repaired 1,
row removed), contradicting the claim that records with status failed are
neither classified as inconsistent nor repaired. -/
theorem C2_counterexample :
    run_reconcile_failed_row.1 = ⟨1, 1, 1⟩ ∧
    run_reconcile_failed_row.2.rows = [] := by
  decide

/-- C2 (amended): the Reconciler examines every ledger row regardless of
status.  Over a single-row ledger with no external resources, a row whose
status is not deleted (success and failed alike) is classified inconsistent
and repaired by removing every ledger row for its key, the report reading
checked 1, inconsistent 1, repaired 1; a row with status deleted is treated
as consistent and left untouched, the report reading checked 1, inconsistent
0, repaired 0.  The success-row round-trip asserted by the claim is the
success instance of the first case. -/
theorem C2_reconciler_all_rows (cfg : Config) (rf : RbFaults) (r : LRow)
    (students : List StudentRow) :
    (r.status ≠ RStatus.deleted →
      (perform_consistency_check cfg rf ⟨[r], students, ⟨[], []⟩⟩).1 = ⟨1, 1, 1⟩ ∧
      (perform_consistency_check cfg rf ⟨[r], students, ⟨[], []⟩⟩).2.rows = []) ∧
    (r.status = RStatus.deleted →
      (perform_consistency_check cfg rf ⟨[r], students, ⟨[], []⟩⟩).1 = ⟨1, 0, 0⟩ ∧
      (perform_consistency_check cfg rf ⟨[r], students, ⟨[], []⟩⟩).2 =
        ⟨[r], students, ⟨[], []⟩⟩) := by
  constructor
  · intro hnd
    have hbd : (r.status == RStatus.deleted) = false := by
      cases hr : r.status <;> simp_all
    constructor <;>
      simp [perform_consistency_check, verify_data_consistency, check_identity_exists,
            repair_data_inconsistency, rollback_database_creation, hbd, hnd]
  · intro hd
    have hbd : (r.status == RStatus.deleted) = true := by rw [hd]; rfl
    constructor <;>
      simp [perform_consistency_check, verify_data_consistency, hbd]

/-- C2 witness: the amended theorem instantiated at the round-trip scenario
of the claim: one success row for k1 with no external grant is removed and
reported as one inconsistency, one repair. -/
theorem C2_reconciler_all_rows_witness :
    (perform_consistency_check cfg0 RbFaults.none
        ⟨[⟨"k1", "db_k1", "user_k1", RStatus.success, Option.none⟩], [], ⟨[], []⟩⟩).1 =
      ⟨1, 1, 1⟩ ∧
    (perform_consistency_check cfg0 RbFaults.none
        ⟨[⟨"k1", "db_k1", "user_k1", RStatus.success, Option.none⟩], [], ⟨[], []⟩⟩).2.rows =
      [] :=
  (C2_reconciler_all_rows cfg0 RbFaults.none
    ⟨"k1", "db_k1", "user_k1", RStatus.success, Option.none⟩ []).1 (by decide)

/-- C4 (amended): for a request whose key passes validate_identity_key but
is not eligible (not on the allowlist, or already applied), the ledger
exists_active query runs first (it is the head of the trace, before any
allowlist query), the request is answered with the provisioning-failure
code 50002 (a server-error class: no NotAllowed client-error class exists in
the code), no create-database or create-user statement is issued, and no
ledger row for the key remains, the transient failed record being removed
again by the repair step. -/
theorem C4_ineligible_request (cfg : Config) (k pw : String) (f : MyFaults)
    (rfTx rfRep : RbFaults) (w : World)
    (hvk : validate_identity_key k = true)
    (hnorow : ∀ r ∈ w.rows, r.identity_key ≠ k)
    (hinelig : (is_student_id_allowed k w).1 = false) :
    (apply_database cfg k pw f rfTx rfRep w).1.code = 50002 ∧
    (apply_database cfg k pw f rfTx rfRep w).2.2.head? =
      Option.some (Act.queryExists k) ∧
    (∀ a ∈ (apply_database cfg k pw f rfTx rfRep w).2.2,
      (∀ n, a ≠ Act.createDb n) ∧ (∀ u h, a ≠ Act.createUser u h)) ∧
    (∀ r ∈ (apply_database cfg k pw f rfTx rfRep w).2.1.rows, r.identity_key ≠ k) := by
  have hce := check_identity_exists_of_no_row hnorow
  rcases hA : is_student_id_allowed k w with ⟨al, tr⟩
  have hal : al = false := by rw [hA] at hinelig; exact hinelig
  subst hal
  have htr : tr = [] ∨ tr = [Act.queryAllowlist k] := by
    by_cases hf : validate_student_id_format k = true
    · right
      have he : is_student_id_allowed k w =
          (w.students.any (fun s => s.student_id == k && !s.has_applied),
           [Act.queryAllowlist k]) := by
        simp [is_student_id_allowed, hf]
      rw [hA] at he
      exact congrArg Prod.snd he
    · left
      have hf' : validate_student_id_format k = false := by simpa using hf
      have he : is_student_id_allowed k w = (false, []) := by
        simp [is_student_id_allowed, hf']
      rw [hA] at he
      exact congrArg Prod.snd he
  have eq1 : provision_database cfg k pw f w =
      (Except.error "not in allowlist or already applied", w, tr) := by
    simp [provision_database, hA]
  have eq2 : provision_database_with_transaction cfg k pw f rfTx w =
      (Except.error "not in allowlist or already applied", w, tr) := by
    simp [provision_database_with_transaction, eq1]
  have hanyrow : w.rows.any (fun r => r.identity_key == k) = false := by
    rw [List.any_eq_false]
    intro r hr
    simp [hnorow r hr]
  have eq3 : create_failed_applicant k
      ("provisioning failed: not in allowlist or already applied") w =
      (Except.ok { w with rows := w.rows ++
          [⟨k, "", "", RStatus.failed,
            Option.some ("provisioning failed: not in allowlist or already applied")⟩] },
       [Act.insertRow ⟨k, "", "", RStatus.failed,
          Option.some ("provisioning failed: not in allowlist or already applied")⟩]) := by
    simp [create_failed_applicant, hanyrow]
  have hex : check_identity_exists k { w with rows := w.rows ++
      [⟨k, "", "", RStatus.failed,
        Option.some ("provisioning failed: not in allowlist or already applied")⟩] } =
      (true, [Act.queryExists k]) := by
    simp [check_identity_exists, List.any_append]
  have happly : apply_database cfg k pw f rfTx rfRep w =
      (⟨50002, Option.none⟩,
       (repair_data_inconsistency cfg k rfRep
         { w with rows := w.rows ++
           [⟨k, "", "", RStatus.failed,
             Option.some ("provisioning failed: not in allowlist or already applied")⟩] }).1,
       [Act.queryExists k] ++ tr ++
         [Act.insertRow ⟨k, "", "", RStatus.failed,
            Option.some ("provisioning failed: not in allowlist or already applied")⟩] ++
         (repair_data_inconsistency cfg k rfRep
           { w with rows := w.rows ++
             [⟨k, "", "", RStatus.failed,
               Option.some ("provisioning failed: not in allowlist or already applied")⟩] }).2) := by
    simp [apply_database, hvk, hce, eq2, eq3]
  have hreptr : (repair_data_inconsistency cfg k rfRep
      { w with rows := w.rows ++
        [⟨k, "", "", RStatus.failed,
          Option.some ("provisioning failed: not in allowlist or already applied")⟩] }).2 =
      [Act.queryExists k, Act.deleteRows k,
       Act.dropUser ("user_" ++ k) (cfg.allowed_host.getD "localhost"),
       Act.dropDb ("db_" ++ k), Act.flush] := by
    simp [repair_data_inconsistency, hex, rollback_database_creation]
  have hreprows : ∀ r2 ∈ (repair_data_inconsistency cfg k rfRep
      { w with rows := w.rows ++
        [⟨k, "", "", RStatus.failed,
          Option.some ("provisioning failed: not in allowlist or already applied")⟩] }).1.rows,
      r2.identity_key ≠ k := by
    intro r2 hr2
    simp [repair_data_inconsistency, hex, rollback_database_creation,
          List.mem_filter] at hr2
    exact hr2.2
  refine ⟨by rw [happly], by rw [happly]; rfl, ?_, ?_⟩
  · intro a ha
    rw [happly, hreptr] at ha
    simp only [List.mem_append, List.mem_singleton, List.mem_cons,
      List.not_mem_nil, or_false] at ha
    rcases ha with ((ha | ha) | ha) | ha
    · subst ha; exact ⟨fun n => by simp, fun u h => by simp⟩
    · rcases htr with h | h <;> subst h
      · simp at ha
      · simp only [List.mem_singleton] at ha
        subst ha; exact ⟨fun n => by simp, fun u h => by simp⟩
    · subst ha; exact ⟨fun n => by simp, fun u h => by simp⟩
    · rcases ha with ha | ha | ha | ha | ha <;> subst ha <;>
        exact ⟨fun n => by simp, fun u h => by simp⟩
  · intro r2 hr2
    rw [happly] at hr2
    exact hreprows r2 hr2

/-- C4 witness: the amended theorem applied at the format-valid key
2023010101 with an empty allowlist and an empty ledger. -/
theorem C4_ineligible_request_witness :
    (apply_database cfg0 "2023010101" "PwAa1" MyFaults.none RbFaults.none
        RbFaults.none wNoStu).1.code = 50002 ∧
    (apply_database cfg0 "2023010101" "PwAa1" MyFaults.none RbFaults.none
        RbFaults.none wNoStu).2.2.head? = Option.some (Act.queryExists "2023010101") ∧
    (∀ a ∈ (apply_database cfg0 "2023010101" "PwAa1" MyFaults.none RbFaults.none
        RbFaults.none wNoStu).2.2,
      (∀ n, a ≠ Act.createDb n) ∧ (∀ u h, a ≠ Act.createUser u h)) ∧
    (∀ r ∈ (apply_database cfg0 "2023010101" "PwAa1" MyFaults.none RbFaults.none
        RbFaults.none wNoStu).2.1.rows, r.identity_key ≠ "2023010101") :=
  C4_ineligible_request cfg0 "2023010101" "PwAa1" MyFaults.none RbFaults.none
    RbFaults.none wNoStu (by decide) (by decide) (by decide)

/-- C4 (counterexample): the format-valid key 2023010101 with an empty
allowlist.  The request is answered with code 50002, the server-error
provisioning-failure class rather than a distinct NotAllowed client-error
class, and the trace shows the ledger exists_active query running before
the allowlist query, contradicting the claimed order. -/
theorem C4_counterexample :
    run_not_allowlisted.1.code = 50002 ∧
    run_not_allowlisted.2.2.take 2 =
      [Act.queryExists "2023010101", Act.queryAllowlist "2023010101"] := by
  decide

/-- C5 (amended): create_scoped_resource executes, in this order: create
database, create user, grant exactly SELECT, INSERT, UPDATE, DELETE, INDEX
and LOCK TABLES on that one database, revoke dangerous global privileges,
flush privileges; a revoke error is ignored (the outcome never depends on
the revoke fault flag, mirroring the logged-and-swallowed revoke Result),
but when the grant step fails the function returns the grant error at once
and the revoke step does NOT run. -/
theorem C5_provision_step_order (cfg : Config) (k pw : String) (w : World)
    (host : String)
    (hh : cfg.allowed_host = Option.some host)
    (hwild : (host == "%" && !cfg.devMode) = false)
    (hhostv : is_valid_host cfg host = true)
    (hfmt : validate_student_id_format k = true)
    (hall : k.data.all (fun c => c.isAlphanum || c == '_') = true)
    (hstu : w.students.any (fun s => s.student_id == k && !s.has_applied) = true) :
    ((provision_database cfg k pw MyFaults.none w).1 =
        Except.ok ⟨"db_" ++ k, "user_" ++ k, pw⟩ ∧
     (provision_database cfg k pw MyFaults.none w).2.2 =
       [Act.queryAllowlist k, Act.createDb ("db_" ++ k),
        Act.createUser ("user_" ++ k) host,
        Act.grantPrivs minimal_privs ("db_" ++ k) ("user_" ++ k) host,
        Act.revokePrivs ("user_" ++ k) host, Act.flush,
        Act.markApplied k ("db_" ++ k)]) ∧
    (∀ f : MyFaults, f.createDbFails = false → f.createUserFails = false →
      f.grantFails = true →
      (provision_database cfg k pw f w).1 = Except.error "grant failed" ∧
      Act.revokePrivs ("user_" ++ k) host ∉ (provision_database cfg k pw f w).2.2) ∧
    (∀ b : Bool,
      provision_database cfg k pw ⟨false, false, false, b, false⟩ w =
        provision_database cfg k pw MyFaults.none w) := by
  refine ⟨provision_happy cfg k pw w host hh hwild hhostv hfmt hall hstu, ?_, ?_⟩
  · intro f h1 h2 h3
    obtain ⟨hr, ht⟩ :=
      provision_grant_fail cfg k pw w host f hh hwild hhostv hfmt hall hstu h1 h2 h3
    refine ⟨hr, ?_⟩
    rw [ht]
    simp
  · intro b
    rfl

/-- C5 witness: the ordering theorem applied at the eligible key 2023010101
with host localhost; the fault-free trace is exactly the five ordered MySQL
steps preceded by the allowlist query and followed by the allowlist
update. -/
theorem C5_provision_step_order_witness :
    (provision_database cfg0 "2023010101" "PwAa1" MyFaults.none w0).1 =
        Except.ok ⟨"db_2023010101", "user_2023010101", "PwAa1"⟩ ∧
    (provision_database cfg0 "2023010101" "PwAa1" MyFaults.none w0).2.2 =
      [Act.queryAllowlist "2023010101", Act.createDb "db_2023010101",
       Act.createUser "user_2023010101" "localhost",
       Act.grantPrivs minimal_privs "db_2023010101" "user_2023010101" "localhost",
       Act.revokePrivs "user_2023010101" "localhost", Act.flush,
       Act.markApplied "2023010101" "db_2023010101"] :=
  (C5_provision_step_order cfg0 "2023010101" "PwAa1" w0 "localhost" rfl (by decide)
    (by decide) (by decide) (by decide) (by decide)).1

/-- C6: when the configured allowed host is the wildcard and the
development-mode flag is off, create_scoped_resource returns an error with
the state untouched and no create-database or create-user statement issued;
with the development-mode flag on, the wildcard host is accepted and an
eligible key provisions successfully. -/
theorem C6_wildcard_host_policy :
    (∀ (cfg : Config) (k pw : String) (f : MyFaults) (w : World),
      cfg.allowed_host = Option.some "%" → cfg.devMode = false →
      (∃ e, (provision_database cfg k pw f w).1 = Except.error e) ∧
      (provision_database cfg k pw f w).2.1 = w ∧
      ∀ a ∈ (provision_database cfg k pw f w).2.2,
        (∀ n, a ≠ Act.createDb n) ∧ (∀ u h, a ≠ Act.createUser u h)) ∧
    (∀ (k pw : String) (w : World) (ip : String → Bool),
      validate_student_id_format k = true →
      (k.data.all (fun c => c.isAlphanum || c == '_')) = true →
      w.students.any (fun s => s.student_id == k && !s.has_applied) = true →
      (provision_database ⟨Option.some "%", true, ip⟩ k pw MyFaults.none w).1 =
        Except.ok ⟨"db_" ++ k, "user_" ++ k, pw⟩) := by
  constructor
  · intro cfg k pw f w hh hdev
    rcases hA : is_student_id_allowed k w with ⟨allowed, tr⟩
    have htr : tr = [] ∨ tr = [Act.queryAllowlist k] := by
      by_cases hf : validate_student_id_format k = true
      · right
        have he : is_student_id_allowed k w =
            (w.students.any (fun s => s.student_id == k && !s.has_applied),
             [Act.queryAllowlist k]) := by
          simp [is_student_id_allowed, hf]
        rw [hA] at he
        exact congrArg Prod.snd he
      · left
        have hf' : validate_student_id_format k = false := by simpa using hf
        have he : is_student_id_allowed k w = (false, []) := by
          simp [is_student_id_allowed, hf']
        rw [hA] at he
        exact congrArg Prod.snd he
    have hnoact : ∀ a ∈ tr, (∀ n, a ≠ Act.createDb n) ∧ (∀ u h, a ≠ Act.createUser u h) := by
      intro a ha
      rcases htr with h | h <;> subst h
      · simp at ha
      · simp only [List.mem_singleton] at ha
        subst ha
        exact ⟨fun n => by simp, fun u h => by simp⟩
    cases hal : allowed with
    | false =>
      have hrun : provision_database cfg k pw f w =
          (Except.error "not in allowlist or already applied", w, tr) := by
        rw [hal] at hA
        simp [provision_database, hA]
      exact ⟨⟨_, by rw [hrun]⟩, by rw [hrun], by rw [hrun]; exact hnoact⟩
    | true =>
      have hrun : provision_database cfg k pw f w =
          (Except.error "wildcard host forbidden", w, tr) := by
        rw [hal] at hA
        simp [provision_database, hA, hh, hdev]
      exact ⟨⟨_, by rw [hrun]⟩, by rw [hrun], by rw [hrun]; exact hnoact⟩
  · intro k pw w ip hfmt hall hstu
    exact (provision_happy ⟨Option.some "%", true, ip⟩ k pw w "%" rfl rfl
      (by rw [is_valid_host_wildcard]) hfmt hall hstu).1

/-- C6 witness: the wildcard policy theorem applied concretely: in
production mode the wildcard configuration makes provisioning of 2023010101
error out, and with the development flag the same request succeeds. -/
theorem C6_wildcard_host_policy_witness :
    (∃ e, (provision_database ⟨Option.some "%", false, fun _ => false⟩ "2023010101"
        "PwAa1" MyFaults.none w0).1 = Except.error e) ∧
    (provision_database ⟨Option.some "%", true, fun _ => false⟩ "2023010101"
        "PwAa1" MyFaults.none w0).1 =
      Except.ok ⟨"db_2023010101", "user_2023010101", "PwAa1"⟩ :=
  ⟨(C6_wildcard_host_policy.1 ⟨Option.some "%", false, fun _ => false⟩ "2023010101"
      "PwAa1" MyFaults.none w0 rfl rfl).1,
   C6_wildcard_host_policy.2 "2023010101" "PwAa1" w0 (fun _ => false)
     (by decide) (by decide) (by decide)⟩

/-- C5 (counterexample): create_scoped_resource for the eligible key
2023010101 with the grant statement failing: the call returns the grant
error and the trace contains no revoke statement, contradicting the claim
that the revoke step runs even when the grant step failed. -/
theorem C5_counterexample :
    run_grant_fails.1 = Except.error "grant failed" ∧
    Act.revokePrivs "user_2023010101" "localhost" ∉ run_grant_fails.2.2 :=
  ⟨rfl, by decide⟩

end DormDB
